import Mathlib

/-!
# showAlert (app/static/js/scripts.js)

A shallow embedding of the single function of the repository, together with
the small part of the host document it talks to.

Host model.  The document is the list of its elements in document order.
An element carries its `id`, its text content and its inline style.  The
inline style is a record: the five properties the function writes are named
fields, every other inline property lives in `others`, by name.  Property
values are the strings that were assigned.  `padding` and `border` are
shorthands: assigning one also writes the properties it stands for (the four
padding sides; the border sides with their widths, styles and colours, and
the border image), which live in `others`.  An element reference, as returned
by `document.getElementById`, is the position of the element in the document;
`none` is the `null` of JavaScript.

Nesting of elements is not part of the model: the list holds the elements
outside the message holder, what the holder contains is its text content,
and the text an enclosing element reads through the holder is not
represented.

A call that throws keeps every write done before the throw, so the outcome of
a call is the document it leaves behind together with the completion
(normal, or the thrown fault).
-/

namespace ShowAlert

/-- Inline style of an element (`element.style`). -/
structure Style where
  display : String
  backgroundColor : String
  color : String
  padding : String
  border : String
  others : List (String × String)
  deriving DecidableEq, Repr

/-- An element of the document. -/
structure Element where
  id : String
  textContent : String
  style : Style
  deriving DecidableEq, Repr

/-- The document: its elements, in document order. -/
abbrev Document := List Element

/-- The fault raised by a property access on `null`. -/
inductive Fault where
  | typeError
  deriving DecidableEq, Repr

/-- What a call leaves behind: the document after the call and how the call
completed.  A normal completion carries no value. -/
structure Outcome where
  doc : Document
  result : Except Fault Unit

/-- Lookup `document.getElementById(id)`: a reference to the first element, in
document order, whose id is `id`; `none` (null) when there is none.  It never
faults. -/
def getElementById : Document → String → Option Nat
  | [], _ => none
  | e :: rest, id =>
    if e.id = id then some 0 else (getElementById rest id).map (· + 1)

/-- Write through a reference: the element at position `ref` is replaced by
`f` of it, nothing else moves. -/
def modifyAt : Document → Nat → (Element → Element) → Document
  | [], _, _ => []
  | e :: rest, 0, f => f e :: rest
  | e :: rest, n + 1, f => e :: modifyAt rest n f

/-- The assignment `ref.textContent = text`. -/
def setTextContent (doc : Document) (ref : Nat) (text : String) : Document :=
  modifyAt doc ref (fun e => { e with textContent := text })

/-- An assignment `ref.style.<property> = value`, given as the update `f` of the
style record. -/
def setStyle (doc : Document) (ref : Nat) (f : Style → Style) : Document :=
  modifyAt doc ref (fun e => { e with style := f e.style })

/-- Read a property out of a list of inline declarations: the value of the
first declaration of that name. -/
def getProperty : List (String × String) → String → Option String
  | [], _ => none
  | (n, v) :: rest, name => if n = name then some v else getProperty rest name

/-- Write one declaration: the first declaration of that name takes the new
value where it stands; a name not yet declared is added at the end. -/
def setProperty : List (String × String) → String → String → List (String × String)
  | [], name, value => [(name, value)]
  | (n, v) :: rest, name, value =>
    if n = name then (name, value) :: rest else (n, v) :: setProperty rest name value

/-- Write several declarations, first to last. -/
def setProperties (decls writes : List (String × String)) : List (String × String) :=
  writes.foldl (fun acc w => setProperty acc w.1 w.2) decls

/-- What an assignment `style.padding = value` of a single length writes besides
`padding` itself: the four sides. -/
def paddingLonghands (value : String) : List (String × String) :=
  [("paddingTop", value), ("paddingRight", value), ("paddingBottom", value),
   ("paddingLeft", value)]

/-- What an assignment `style.border = value` writes besides `border` itself,
`value` being a width, a line style and a colour: each side and its width,
style and colour, the three properties over all sides, and the border image,
which the shorthand resets. -/
def borderLonghands (value width style color : String) : List (String × String) :=
  [("borderTop", value), ("borderTopWidth", width), ("borderTopStyle", style),
   ("borderTopColor", color),
   ("borderRight", value), ("borderRightWidth", width), ("borderRightStyle", style),
   ("borderRightColor", color),
   ("borderBottom", value), ("borderBottomWidth", width), ("borderBottomStyle", style),
   ("borderBottomColor", color),
   ("borderLeft", value), ("borderLeftWidth", width), ("borderLeftStyle", style),
   ("borderLeftColor", color),
   ("borderWidth", width), ("borderStyle", style), ("borderColor", color),
   ("borderImage", "initial"), ("borderImageSource", "initial"),
   ("borderImageSlice", "initial"), ("borderImageWidth", "initial"),
   ("borderImageOutset", "initial"), ("borderImageRepeat", "initial")]

/-- The function `showAlert(message, isError = false)`.  `isError = none` is a
call with the second argument left out.  The statements are taken one by one,
in source order. -/
def showAlert (message : String) (isError : Option Bool) (doc : Document) : Outcome :=
  let isError := isError.getD false
  let alertBox := getElementById doc "alert-box"
  let alertMessage := getElementById doc "alert-message"
  match alertMessage with
  | none => ⟨doc, .error .typeError⟩
  | some alertMessage =>
    let doc := setTextContent doc alertMessage message
    match alertBox with
    | none => ⟨doc, .error .typeError⟩
    | some alertBox =>
      let doc := setStyle doc alertBox (fun s => { s with display := "block" })
      let doc := setStyle doc alertBox
        (fun s => { s with backgroundColor := if isError then "#ffcccc" else "#ccffcc" })
      let doc := setStyle doc alertBox (fun s => { s with color := "#333" })
      let doc := setStyle doc alertBox (fun s =>
        { s with padding := "10px"
                 others := setProperties s.others (paddingLonghands "10px") })
      let doc := setStyle doc alertBox (fun s =>
        { s with border := "1px solid #999"
                 others := setProperties s.others
                   (borderLonghands "1px solid #999" "1px" "solid" "#999") })
      ⟨doc, .ok ()⟩

/-- The element a lookup by id reaches, if any. -/
def elementById (doc : Document) (id : String) : Option Element :=
  (getElementById doc id).bind (fun ref => doc[ref]?)

/-- The element with this id exists in the document. -/
def hasElement (doc : Document) (id : String) : Prop :=
  (getElementById doc id).isSome = true

instance (doc : Document) (id : String) : Decidable (hasElement doc id) := by
  unfold hasElement; infer_instance

/-- The call completed with a fault. -/
def Outcome.failed (o : Outcome) : Prop := o.result = .error .typeError

/-- The call completed normally. -/
def Outcome.succeeded (o : Outcome) : Prop := o.result = .ok ()

/-- The whole effect of a successful call on the message holder. -/
def writeMessage (message : String) (e : Element) : Element :=
  { e with textContent := message }

/-- The whole effect of a successful call on the container, the five style
writes taken together. -/
def writeBox (isError : Bool) (e : Element) : Element :=
  { e with style :=
      { e.style with
        display := "block"
        backgroundColor := if isError then "#ffcccc" else "#ccffcc"
        color := "#333"
        padding := "10px"
        border := "1px solid #999"
        others := setProperties (setProperties e.style.others (paddingLonghands "10px"))
          (borderLonghands "1px solid #999" "1px" "solid" "#999") } }

/-- The names of the properties the two shorthand assignments of `showAlert`
write besides `padding` and `border` themselves. -/
def shorthandNames : List String :=
  (paddingLonghands "10px" ++ borderLonghands "1px solid #999" "1px" "solid" "#999").map
    Prod.fst

/-- The six properties a call writes, as a lookup by id reads them back: the
message holder's text content, then the container's display, background
colour, text colour, padding and border. -/
def writtenProperties (doc : Document) :
    Option (String × String × String × String × String × String) :=
  match elementById doc "alert-message", elementById doc "alert-box" with
  | some msg, some box =>
    some (msg.textContent, box.style.display, box.style.backgroundColor, box.style.color,
      box.style.padding, box.style.border)
  | _, _ => none

/-- A small page: a heading, the alert container (hidden, with its own text and
an extra inline property) and the message holder. -/
def samplePage : Document :=
  [ ⟨"title", "Users", ⟨"", "", "", "", "", []⟩⟩,
    ⟨"alert-box", "x", ⟨"none", "white", "black", "0", "none", [("margin", "4px")]⟩⟩,
    ⟨"alert-message", "old", ⟨"inline", "", "red", "", "", [("fontWeight", "bold")]⟩⟩ ]

/-- A page whose container carries `padding-left: 3px`, `border-top-width: 5px`
and `margin: 4px` inline. -/
def pageWithLonghands : Document :=
  [ ⟨"alert-box", "",
      ⟨"none", "", "", "", "",
        [("paddingLeft", "3px"), ("borderTopWidth", "5px"), ("margin", "4px")]⟩⟩,
    ⟨"alert-message", "old", ⟨"", "", "", "", "", []⟩⟩ ]

/-- A page that has the message holder but no alert container. -/
def pageWithoutBox : Document :=
  [ ⟨"title", "Users", ⟨"", "", "", "", "", []⟩⟩,
    ⟨"alert-message", "old", ⟨"inline", "", "red", "", "", []⟩⟩ ]

/-- A page that has the alert container but no message holder. -/
def pageWithoutMessage : Document :=
  [ ⟨"alert-box", "x", ⟨"none", "white", "black", "0", "none", [("margin", "4px")]⟩⟩,
    ⟨"title", "Users", ⟨"", "", "", "", "", []⟩⟩ ]

/-! ## Lemmas on references and writes -/

theorem getElementById_spec (doc : Document) (id : String) (ref : Nat)
    (h : getElementById doc id = some ref) :
    ∃ e, doc[ref]? = some e ∧ e.id = id := by
  induction doc generalizing ref with
  | nil => simp [getElementById] at h
  | cons a rest ih =>
    unfold getElementById at h
    split at h
    · rename_i ha
      cases h
      exact ⟨a, by simp, ha⟩
    · cases hr : getElementById rest id with
      | none => simp [hr] at h
      | some k =>
        simp [hr] at h
        subst h
        obtain ⟨e, he, hid⟩ := ih k hr
        exact ⟨e, by simpa using he, hid⟩

theorem getElementById_modifyAt (doc : Document) (id : String) (ref : Nat)
    (f : Element → Element) (hf : ∀ e, (f e).id = e.id) :
    getElementById (modifyAt doc ref f) id = getElementById doc id := by
  induction doc generalizing ref with
  | nil => simp [modifyAt]
  | cons a rest ih =>
    cases ref with
    | zero => simp [modifyAt, getElementById, hf]
    | succ n => simp [modifyAt, getElementById, ih n]

theorem length_modifyAt (doc : Document) (ref : Nat) (f : Element → Element) :
    (modifyAt doc ref f).length = doc.length := by
  induction doc generalizing ref with
  | nil => simp [modifyAt]
  | cons a rest ih =>
    cases ref with
    | zero => simp [modifyAt]
    | succ n => simp [modifyAt, ih n]

theorem getElem?_modifyAt_eq (doc : Document) (ref : Nat) (f : Element → Element) :
    (modifyAt doc ref f)[ref]? = (doc[ref]?).map f := by
  induction doc generalizing ref with
  | nil => simp [modifyAt]
  | cons a rest ih =>
    cases ref with
    | zero => simp [modifyAt]
    | succ n => simpa [modifyAt] using ih n

theorem getElem?_modifyAt_ne (doc : Document) (ref i : Nat) (f : Element → Element)
    (h : i ≠ ref) : (modifyAt doc ref f)[i]? = doc[i]? := by
  induction doc generalizing ref i with
  | nil => simp [modifyAt]
  | cons a rest ih =>
    cases ref with
    | zero =>
      cases i with
      | zero => exact absurd rfl h
      | succ j => simp [modifyAt]
    | succ n =>
      cases i with
      | zero => simp [modifyAt]
      | succ j =>
        have hj : j ≠ n := fun hjn => h (by rw [hjn])
        simpa [modifyAt] using ih n j hj

theorem modifyAt_modifyAt (doc : Document) (ref : Nat) (f g : Element → Element) :
    modifyAt (modifyAt doc ref f) ref g = modifyAt doc ref (fun e => g (f e)) := by
  induction doc generalizing ref with
  | nil => simp [modifyAt]
  | cons a rest ih =>
    cases ref with
    | zero => simp [modifyAt]
    | succ n => simp [modifyAt, ih n]

theorem modifyAt_comm (doc : Document) (r s : Nat) (f g : Element → Element)
    (h : r ≠ s) :
    modifyAt (modifyAt doc r f) s g = modifyAt (modifyAt doc s g) r f := by
  induction doc generalizing r s with
  | nil => simp [modifyAt]
  | cons a rest ih =>
    cases r with
    | zero =>
      cases s with
      | zero => exact absurd rfl h
      | succ j => simp [modifyAt]
    | succ n =>
      cases s with
      | zero => simp [modifyAt]
      | succ j =>
        have hj : n ≠ j := fun hjn => h (by rw [hjn])
        simp [modifyAt, ih n j hj]

/-- Two rounds of writes to two different elements are one round of the
composed writes. -/
theorem modifyAt_two_rounds (doc : Document) (rb rm : Nat) (h : rb ≠ rm)
    (f1 f2 g1 g2 : Element → Element) :
    modifyAt (modifyAt (modifyAt (modifyAt doc rm f1) rb g1) rm f2) rb g2 =
      modifyAt (modifyAt doc rm (fun e => f2 (f1 e))) rb (fun e => g2 (g1 e)) := by
  have h1 : modifyAt (modifyAt (modifyAt doc rm f1) rb g1) rm f2 =
      modifyAt (modifyAt (modifyAt doc rm f1) rm f2) rb g1 :=
    modifyAt_comm (modifyAt doc rm f1) rb rm g1 f2 h
  rw [h1, modifyAt_modifyAt, modifyAt_modifyAt]

/-! ## Lemmas on inline declarations -/

theorem getProperty_setProperty (decls : List (String × String)) (name value k : String) :
    getProperty (setProperty decls name value) k =
      if name = k then some value else getProperty decls k := by
  induction decls with
  | nil => simp [setProperty, getProperty]
  | cons d rest ih =>
    obtain ⟨n, v⟩ := d
    by_cases hn : n = name
    · subst hn
      by_cases hk : n = k <;> simp [setProperty, getProperty, hk]
    · by_cases hk : n = k
      · subst hk
        have hne : ¬ name = n := fun h => hn h.symm
        simp [setProperty, getProperty, hn, hne]
      · simp [setProperty, getProperty, hn, hk, ih]

theorem setProperty_eq_self (decls : List (String × String)) (name value : String)
    (h : getProperty decls name = some value) : setProperty decls name value = decls := by
  induction decls with
  | nil => simp [getProperty] at h
  | cons d rest ih =>
    obtain ⟨n, v⟩ := d
    by_cases hn : n = name
    · subst hn
      simp [getProperty] at h
      simp [setProperty, h]
    · simp [getProperty, hn] at h
      simp [setProperty, hn, ih h]

theorem setProperties_cons (decls : List (String × String)) (w : String × String)
    (writes : List (String × String)) :
    setProperties decls (w :: writes) = setProperties (setProperty decls w.1 w.2) writes := rfl

theorem setProperties_append (decls ws1 ws2 : List (String × String)) :
    setProperties (setProperties decls ws1) ws2 = setProperties decls (ws1 ++ ws2) := by
  simp [setProperties, List.foldl_append]

/-- A name that is not written keeps its value. -/
theorem getProperty_setProperties_of_not_mem (writes decls : List (String × String))
    (k : String) (h : k ∉ writes.map Prod.fst) :
    getProperty (setProperties decls writes) k = getProperty decls k := by
  induction writes generalizing decls with
  | nil => rfl
  | cons w rest ih =>
    simp only [List.map_cons, List.mem_cons, not_or] at h
    rw [setProperties_cons, ih _ h.2, getProperty_setProperty]
    have hne : ¬ w.1 = k := fun e => h.1 e.symm
    simp [hne]

/-- A name that is written once reads back the value written. -/
theorem getProperty_setProperties_of_mem (writes decls : List (String × String))
    (hnd : (writes.map Prod.fst).Nodup) (w : String × String) (hw : w ∈ writes) :
    getProperty (setProperties decls writes) w.1 = some w.2 := by
  induction writes generalizing decls with
  | nil => simp at hw
  | cons x rest ih =>
    simp only [List.map_cons, List.nodup_cons] at hnd
    rw [setProperties_cons]
    rcases List.mem_cons.1 hw with hx | hx
    · subst hx
      rw [getProperty_setProperties_of_not_mem _ _ _ hnd.1, getProperty_setProperty]
      simp
    · exact ih _ hnd.2 hx

/-- Writing values that are already there changes nothing. -/
theorem setProperties_eq_self (writes decls : List (String × String))
    (h : ∀ w ∈ writes, getProperty decls w.1 = some w.2) :
    setProperties decls writes = decls := by
  induction writes with
  | nil => rfl
  | cons x rest ih =>
    rw [setProperties_cons, setProperty_eq_self _ _ _ (h x (List.mem_cons_self _ _))]
    exact ih (fun w hw => h w (List.mem_cons_of_mem _ hw))

/-- Writing the same declarations a second time changes nothing. -/
theorem setProperties_idem (writes decls : List (String × String))
    (hnd : (writes.map Prod.fst).Nodup) :
    setProperties (setProperties decls writes) writes = setProperties decls writes :=
  setProperties_eq_self writes _
    (fun w hw => getProperty_setProperties_of_mem writes decls hnd w hw)

theorem shorthandNames_nodup : shorthandNames.Nodup := by decide

/-- A second round of the container writes overrides the first. -/
theorem writeBox_writeBox (b1 b2 : Bool) (e : Element) :
    writeBox b2 (writeBox b1 e) = writeBox b2 e := by
  have h := setProperties_idem
    (paddingLonghands "10px" ++ borderLonghands "1px solid #999" "1px" "solid" "#999")
    e.style.others shorthandNames_nodup
  simp only [← setProperties_append] at h
  simp only [writeBox, h]

/-- The container writes leave every property outside `shorthandNames` of the
other inline declarations as it was. -/
theorem writeBox_others_frame (b : Bool) (e : Element) (name : String)
    (h : name ∉ shorthandNames) :
    getProperty (writeBox b e).style.others name = getProperty e.style.others name := by
  simp only [writeBox, setProperties_append]
  exact getProperty_setProperties_of_not_mem _ _ _ h

theorem writeBox_twice (b1 b2 : Bool) :
    (fun e => writeBox b2 (writeBox b1 e)) = writeBox b2 :=
  funext (writeBox_writeBox b1 b2)

theorem writeMessage_twice (m1 m2 : String) :
    (fun e => writeMessage m2 (writeMessage m1 e)) = writeMessage m2 := rfl

/-- The two target elements are different elements. -/
theorem box_ne_message (doc : Document) (rb rm : Nat)
    (hb : getElementById doc "alert-box" = some rb)
    (hm : getElementById doc "alert-message" = some rm) : rb ≠ rm := by
  intro h
  subst h
  obtain ⟨e, he, hid⟩ := getElementById_spec doc _ _ hb
  obtain ⟨e2, he2, hid2⟩ := getElementById_spec doc _ _ hm
  rw [he] at he2
  cases he2
  rw [hid] at hid2
  exact absurd hid2 (by decide)

/-- With both target elements present the call completes normally and its
effect is one write to the message holder and one to the container. -/
theorem showAlert_present (message : String) (isError : Option Bool) (doc : Document)
    (rb rm : Nat)
    (hb : getElementById doc "alert-box" = some rb)
    (hm : getElementById doc "alert-message" = some rm) :
    showAlert message isError doc =
      ⟨modifyAt (modifyAt doc rm (writeMessage message)) rb (writeBox (isError.getD false)),
        .ok ()⟩ := by
  simp only [showAlert, hb, hm, setStyle, setTextContent, modifyAt_modifyAt]
  rfl

/-- With the message holder absent the call faults and writes nothing. -/
theorem showAlert_no_message (message : String) (isError : Option Bool) (doc : Document)
    (hm : getElementById doc "alert-message" = none) :
    showAlert message isError doc = ⟨doc, .error .typeError⟩ := by
  simp only [showAlert, hm]

/-- With the message holder present and the container absent the call faults
after the text write. -/
theorem showAlert_no_box (message : String) (isError : Option Bool) (doc : Document)
    (rm : Nat)
    (hb : getElementById doc "alert-box" = none)
    (hm : getElementById doc "alert-message" = some rm) :
    showAlert message isError doc =
      ⟨modifyAt doc rm (writeMessage message), .error .typeError⟩ := by
  simp only [showAlert, hb, hm, setTextContent]
  rfl

theorem hasElement_iff (doc : Document) (id : String) :
    hasElement doc id ↔ ∃ ref, getElementById doc id = some ref := by
  unfold hasElement
  exact Option.isSome_iff_exists

theorem not_hasElement_iff (doc : Document) (id : String) :
    ¬ hasElement doc id ↔ getElementById doc id = none := by
  unfold hasElement
  cases getElementById doc id <;> simp

theorem writeMessage_id (m : String) (e : Element) : (writeMessage m e).id = e.id := rfl

theorem writeBox_id (b : Bool) (e : Element) : (writeBox b e).id = e.id := rfl

/-- The document after a call with both target elements present, element by
element: the two references still reach the same positions, the container is
`writeBox` of what it was, the message holder is `writeMessage` of what it was,
every other position is as before. -/
theorem showAlert_elements (m : String) (b : Option Bool) (doc : Document) (rb rm : Nat)
    (hb : getElementById doc "alert-box" = some rb)
    (hm : getElementById doc "alert-message" = some rm) :
    ∃ box0 msg0, doc[rb]? = some box0 ∧ doc[rm]? = some msg0 ∧
      getElementById (showAlert m b doc).doc "alert-box" = some rb ∧
      getElementById (showAlert m b doc).doc "alert-message" = some rm ∧
      (showAlert m b doc).doc[rb]? = some (writeBox (b.getD false) box0) ∧
      (showAlert m b doc).doc[rm]? = some (writeMessage m msg0) ∧
      (∀ i, i ≠ rb → i ≠ rm → (showAlert m b doc).doc[i]? = doc[i]?) ∧
      (showAlert m b doc).doc.length = doc.length := by
  obtain ⟨box0, hbox, -⟩ := getElementById_spec doc _ _ hb
  obtain ⟨msg0, hmsg, -⟩ := getElementById_spec doc _ _ hm
  have hne : rb ≠ rm := box_ne_message doc rb rm hb hm
  rw [showAlert_present m b doc rb rm hb hm]
  refine ⟨box0, msg0, hbox, hmsg, ?_, ?_, ?_, ?_, ?_, ?_⟩
  · show getElementById (modifyAt (modifyAt doc rm _) rb _) _ = _
    rw [getElementById_modifyAt _ _ _ _ (writeBox_id _),
      getElementById_modifyAt _ _ _ _ (writeMessage_id _), hb]
  · show getElementById (modifyAt (modifyAt doc rm _) rb _) _ = _
    rw [getElementById_modifyAt _ _ _ _ (writeBox_id _),
      getElementById_modifyAt _ _ _ _ (writeMessage_id _), hm]
  · show (modifyAt (modifyAt doc rm _) rb _)[rb]? = _
    rw [getElem?_modifyAt_eq, getElem?_modifyAt_ne _ _ _ _ hne, hbox]
    rfl
  · show (modifyAt (modifyAt doc rm _) rb _)[rm]? = _
    rw [getElem?_modifyAt_ne _ _ _ _ (Ne.symm hne), getElem?_modifyAt_eq, hmsg]
    rfl
  · intro i hib him
    show (modifyAt (modifyAt doc rm _) rb _)[i]? = _
    rw [getElem?_modifyAt_ne _ _ _ _ hib, getElem?_modifyAt_ne _ _ _ _ him]
  · show (modifyAt (modifyAt doc rm _) rb _).length = _
    rw [length_modifyAt, length_modifyAt]

/-- The two target elements as a lookup by id sees them after a call with
both present. -/
theorem showAlert_targets (m : String) (b : Option Bool) (doc : Document)
    (hb : hasElement doc "alert-box") (hm : hasElement doc "alert-message") :
    ∃ box0 msg0, elementById doc "alert-box" = some box0 ∧
      elementById doc "alert-message" = some msg0 ∧
      elementById (showAlert m b doc).doc "alert-box" = some (writeBox (b.getD false) box0) ∧
      elementById (showAlert m b doc).doc "alert-message" = some (writeMessage m msg0) ∧
      (showAlert m b doc).result = .ok () := by
  obtain ⟨rb, hrb⟩ := (hasElement_iff _ _).1 hb
  obtain ⟨rm, hrm⟩ := (hasElement_iff _ _).1 hm
  obtain ⟨box0, msg0, h1, h2, h3, h4, h5, h6, -, -⟩ := showAlert_elements m b doc rb rm hrb hrm
  refine ⟨box0, msg0, ?_, ?_, ?_, ?_, ?_⟩
  · simp [elementById, hrb, h1]
  · simp [elementById, hrm, h2]
  · simp [elementById, h3, h5]
  · simp [elementById, h4, h6]
  · rw [showAlert_present m b doc rb rm hrb hrm]

/-! ## The alert notifier's contract -/

/-- C1: for every message `m` and every document with both target elements,
after `showAlert(m, false)` the message holder's text content is exactly `m`,
the container's display is "block" and its background colour is "#ccffcc". -/
theorem showAlert_success_style (m : String) (doc : Document)
    (hb : hasElement doc "alert-box") (hm : hasElement doc "alert-message") :
    ∃ box msg,
      elementById (showAlert m (some false) doc).doc "alert-box" = some box ∧
      elementById (showAlert m (some false) doc).doc "alert-message" = some msg ∧
      msg.textContent = m ∧
      box.style.display = "block" ∧
      box.style.backgroundColor = "#ccffcc" := by
  obtain ⟨box0, msg0, -, -, h3, h4, -⟩ := showAlert_targets m (some false) doc hb hm
  exact ⟨_, _, h3, h4, rfl, rfl, rfl⟩

/-- Witness for C1 on the sample page, which hides the container beforehand;
the message looks like markup and is stored as it is. -/
theorem showAlert_success_style_witness :
    hasElement samplePage "alert-box" ∧ hasElement samplePage "alert-message" ∧
    elementById samplePage "alert-box" =
      some ⟨"alert-box", "x", ⟨"none", "white", "black", "0", "none", [("margin", "4px")]⟩⟩ ∧
    ∃ box msg,
      elementById (showAlert "<b>Saved</b>" (some false) samplePage).doc "alert-box" = some box ∧
      elementById (showAlert "<b>Saved</b>" (some false) samplePage).doc "alert-message"
        = some msg ∧
      msg.textContent = "<b>Saved</b>" ∧
      box.style.display = "block" ∧
      box.style.backgroundColor = "#ccffcc" :=
  ⟨by decide, by decide, by decide,
    showAlert_success_style "<b>Saved</b>" samplePage (by decide) (by decide)⟩

/-- C2: for every message `m` and every document with both target elements,
after `showAlert(m, true)` the message holder's text content is exactly `m`,
the container's display is "block" and its background colour is "#ffcccc",
which is not the colour the same call with the flag false leaves. -/
theorem showAlert_error_style (m : String) (doc : Document)
    (hb : hasElement doc "alert-box") (hm : hasElement doc "alert-message") :
    ∃ box msg boxOk,
      elementById (showAlert m (some true) doc).doc "alert-box" = some box ∧
      elementById (showAlert m (some true) doc).doc "alert-message" = some msg ∧
      msg.textContent = m ∧
      box.style.display = "block" ∧
      box.style.backgroundColor = "#ffcccc" ∧
      elementById (showAlert m (some false) doc).doc "alert-box" = some boxOk ∧
      box.style.backgroundColor ≠ boxOk.style.backgroundColor := by
  obtain ⟨box0, msg0, h1, -, h3, h4, -⟩ := showAlert_targets m (some true) doc hb hm
  obtain ⟨box1, msg1, k1, -, k3, -, -⟩ := showAlert_targets m (some false) doc hb hm
  refine ⟨_, _, _, h3, h4, rfl, rfl, rfl, k3, ?_⟩
  show (if (some true).getD false = true then "#ffcccc" else "#ccffcc")
    ≠ (if (some false).getD false = true then "#ffcccc" else "#ccffcc")
  decide

/-- Witness for C2: the scenario `showAlert("Failed to save", true)` on the
sample page. -/
theorem showAlert_error_style_witness :
    hasElement samplePage "alert-box" ∧ hasElement samplePage "alert-message" ∧
    ∃ box msg boxOk,
      elementById (showAlert "Failed to save" (some true) samplePage).doc "alert-box"
        = some box ∧
      elementById (showAlert "Failed to save" (some true) samplePage).doc "alert-message"
        = some msg ∧
      msg.textContent = "Failed to save" ∧
      box.style.display = "block" ∧
      box.style.backgroundColor = "#ffcccc" ∧
      elementById (showAlert "Failed to save" (some false) samplePage).doc "alert-box"
        = some boxOk ∧
      box.style.backgroundColor ≠ boxOk.style.backgroundColor :=
  ⟨by decide, by decide,
    showAlert_error_style "Failed to save" samplePage (by decide) (by decide)⟩

/-- C3: a call with the flag left out has the same outcome, on every document,
as the call with the flag false (same final document, same completion); and
`showAlert("Saved")` on a document with both target elements leaves the text
"Saved", the background "#ccffcc" and the display "block". -/
theorem showAlert_default_flag (m : String) (doc : Document) :
    showAlert m none doc = showAlert m (some false) doc ∧
    (hasElement doc "alert-box" → hasElement doc "alert-message" →
      ∃ box msg,
        elementById (showAlert "Saved" none doc).doc "alert-box" = some box ∧
        elementById (showAlert "Saved" none doc).doc "alert-message" = some msg ∧
        msg.textContent = "Saved" ∧
        box.style.backgroundColor = "#ccffcc" ∧
        box.style.display = "block") := by
  refine ⟨rfl, fun hb hm => ?_⟩
  obtain ⟨box0, msg0, -, -, h3, h4, -⟩ := showAlert_targets "Saved" none doc hb hm
  exact ⟨_, _, h3, h4, rfl, rfl, rfl⟩

/-- Witness for C3 on the sample page. -/
theorem showAlert_default_flag_witness :
    hasElement samplePage "alert-box" ∧ hasElement samplePage "alert-message" ∧
    showAlert "Saved" none samplePage = showAlert "Saved" (some false) samplePage ∧
    ∃ box msg,
      elementById (showAlert "Saved" none samplePage).doc "alert-box" = some box ∧
      elementById (showAlert "Saved" none samplePage).doc "alert-message" = some msg ∧
      msg.textContent = "Saved" ∧
      box.style.backgroundColor = "#ccffcc" ∧
      box.style.display = "block" :=
  ⟨by decide, by decide, (showAlert_default_flag "Saved" samplePage).1,
    (showAlert_default_flag "Saved" samplePage).2 (by decide) (by decide)⟩

/-- C4: for every message, flag and document, the call faults exactly when
`alert-box` or `alert-message` is absent, and completes normally exactly when
both are present. -/
theorem showAlert_fails_iff_missing (m : String) (b : Option Bool) (doc : Document) :
    ((showAlert m b doc).failed ↔
      (¬ hasElement doc "alert-box" ∨ ¬ hasElement doc "alert-message")) ∧
    ((showAlert m b doc).succeeded ↔
      (hasElement doc "alert-box" ∧ hasElement doc "alert-message")) := by
  cases hm : getElementById doc "alert-message" with
  | none =>
    have hnm : ¬ hasElement doc "alert-message" := (not_hasElement_iff _ _).2 hm
    rw [showAlert_no_message m b doc hm]
    simp [Outcome.failed, Outcome.succeeded, hnm]
  | some rm =>
    have hhm : hasElement doc "alert-message" := (hasElement_iff _ _).2 ⟨rm, hm⟩
    cases hb : getElementById doc "alert-box" with
    | none =>
      have hnb : ¬ hasElement doc "alert-box" := (not_hasElement_iff _ _).2 hb
      rw [showAlert_no_box m b doc rm hb hm]
      simp [Outcome.failed, Outcome.succeeded, hnb]
    | some rb =>
      have hhb : hasElement doc "alert-box" := (hasElement_iff _ _).2 ⟨rb, hb⟩
      rw [showAlert_present m b doc rb rm hb hm]
      simp [Outcome.failed, Outcome.succeeded, hhb, hhm]

/-- C5, as stated, fails: on a page with the message holder and no container,
`showAlert("Saved", false)` faults and the document is no longer what it was,
the message holder now reads "Saved" instead of "old". -/
theorem showAlert_failure_not_atomic :
    ¬ hasElement pageWithoutBox "alert-box" ∧
    (showAlert "Saved" (some false) pageWithoutBox).failed ∧
    (showAlert "Saved" (some false) pageWithoutBox).doc ≠ pageWithoutBox ∧
    (elementById pageWithoutBox "alert-message").map (·.textContent) = some "old" ∧
    (elementById (showAlert "Saved" (some false) pageWithoutBox).doc "alert-message").map
      (·.textContent) = some "Saved" := by
  refine ⟨by decide, rfl, by decide, by decide, by decide⟩

/-- C5, amended: when a target element is absent the call faults.  If the
message holder is absent the document after the call is the document before
it.  If the message holder is present (so the container is the absent one)
the text write has happened: the message holder is what it was with its text
content replaced by `m` (id and style kept), every other element is as
before, and the document has the same number of elements. -/
theorem showAlert_failure_effect (m : String) (b : Option Bool) (doc : Document)
    (h : ¬ hasElement doc "alert-box" ∨ ¬ hasElement doc "alert-message") :
    (showAlert m b doc).failed ∧
    (¬ hasElement doc "alert-message" → (showAlert m b doc).doc = doc) ∧
    (∀ rm, getElementById doc "alert-message" = some rm →
      (showAlert m b doc).doc = setTextContent doc rm m ∧
      (showAlert m b doc).doc.length = doc.length ∧
      (∀ i, i ≠ rm → (showAlert m b doc).doc[i]? = doc[i]?) ∧
      ∃ msg0, doc[rm]? = some msg0 ∧
        (showAlert m b doc).doc[rm]? = some { msg0 with textContent := m }) := by
  cases hm : getElementById doc "alert-message" with
  | none =>
    rw [showAlert_no_message m b doc hm]
    exact ⟨rfl, fun _ => rfl, fun rm hrm => by cases hrm⟩
  | some rm =>
    have hhm : hasElement doc "alert-message" := (hasElement_iff _ _).2 ⟨rm, hm⟩
    have hb : getElementById doc "alert-box" = none := by
      rcases h with h | h
      · exact (not_hasElement_iff _ _).1 h
      · exact absurd hhm h
    rw [showAlert_no_box m b doc rm hb hm]
    refine ⟨rfl, fun hn => absurd hhm hn, fun r hr => ?_⟩
    cases hr
    obtain ⟨msg0, hmsg, -⟩ := getElementById_spec doc _ _ hm
    refine ⟨rfl, length_modifyAt _ _ _, fun i hi => getElem?_modifyAt_ne _ _ _ _ hi,
      msg0, hmsg, ?_⟩
    show (modifyAt doc rm _)[rm]? = _
    rw [getElem?_modifyAt_eq, hmsg]
    rfl

/-- Witness for the amended C5 on the page without a container, where the
message holder is the second element. -/
theorem showAlert_failure_effect_witness :
    (¬ hasElement pageWithoutBox "alert-box" ∨ ¬ hasElement pageWithoutBox "alert-message") ∧
    getElementById pageWithoutBox "alert-message" = some 1 ∧
    (showAlert "Saved" none pageWithoutBox).failed ∧
    (showAlert "Saved" none pageWithoutBox).doc = setTextContent pageWithoutBox 1 "Saved" :=
  ⟨Or.inl (by decide), by decide,
    (showAlert_failure_effect "Saved" none pageWithoutBox (Or.inl (by decide))).1,
    ((showAlert_failure_effect "Saved" none pageWithoutBox (Or.inl (by decide))).2.2 1
      (by decide)).1⟩

/-- C6: on a document with both target elements, calling `showAlert(m, b)` a
second time leaves the document, and the completion, of the first call. -/
theorem showAlert_idempotent (m : String) (b : Option Bool) (doc : Document)
    (hb : hasElement doc "alert-box") (hm : hasElement doc "alert-message") :
    showAlert m b (showAlert m b doc).doc = showAlert m b doc := by
  obtain ⟨rb, hrb⟩ := (hasElement_iff _ _).1 hb
  obtain ⟨rm, hrm⟩ := (hasElement_iff _ _).1 hm
  obtain ⟨_, _, -, -, h3, h4, -, -, -, -⟩ := showAlert_elements m b doc rb rm hrb hrm
  have hne : rb ≠ rm := box_ne_message doc rb rm hrb hrm
  rw [showAlert_present m b _ rb rm h3 h4, showAlert_present m b doc rb rm hrb hrm]
  show Outcome.mk _ _ = Outcome.mk _ _
  rw [modifyAt_two_rounds doc rb rm hne, writeBox_twice, writeMessage_twice]

/-- Witness for C6 on the sample page. -/
theorem showAlert_idempotent_witness :
    hasElement samplePage "alert-box" ∧ hasElement samplePage "alert-message" ∧
    showAlert "Saved" (some true) (showAlert "Saved" (some true) samplePage).doc
      = showAlert "Saved" (some true) samplePage :=
  ⟨by decide, by decide,
    showAlert_idempotent "Saved" (some true) samplePage (by decide) (by decide)⟩

/-- C7: for every message, flag and document with both target elements, after
the call the container's text colour is "#333", its padding is "10px" and its
border is "1px solid #999". -/
theorem showAlert_fixed_style (m : String) (b : Option Bool) (doc : Document)
    (hb : hasElement doc "alert-box") (hm : hasElement doc "alert-message") :
    ∃ box, elementById (showAlert m b doc).doc "alert-box" = some box ∧
      box.style.color = "#333" ∧
      box.style.padding = "10px" ∧
      box.style.border = "1px solid #999" := by
  obtain ⟨box0, msg0, -, -, h3, -, -⟩ := showAlert_targets m b doc hb hm
  exact ⟨_, h3, rfl, rfl, rfl⟩

/-- Witness for C7 on the sample page, whose container starts with the text
colour "black", the padding "0" and the border "none". -/
theorem showAlert_fixed_style_witness :
    hasElement samplePage "alert-box" ∧ hasElement samplePage "alert-message" ∧
    ∃ box, elementById (showAlert "Failed to save" (some true) samplePage).doc "alert-box"
        = some box ∧
      box.style.color = "#333" ∧
      box.style.padding = "10px" ∧
      box.style.border = "1px solid #999" :=
  ⟨by decide, by decide,
    showAlert_fixed_style "Failed to save" (some true) samplePage (by decide) (by decide)⟩

/-- C8, as stated, fails: on a page whose container carries `padding-left: 3px`
and `border-top-width: 5px` inline, a successful `showAlert("Saved")` leaves the
container with `paddingLeft` "10px" and `borderTopWidth` "1px": style
properties other than display, background colour, text colour, padding and
border have changed. -/
theorem showAlert_frame_longhands_changed :
    (showAlert "Saved" none pageWithLonghands).succeeded ∧
    (elementById pageWithLonghands "alert-box").map
      (fun e => (getProperty e.style.others "paddingLeft",
        getProperty e.style.others "borderTopWidth")) = some (some "3px", some "5px") ∧
    (elementById (showAlert "Saved" none pageWithLonghands).doc "alert-box").map
      (fun e => (getProperty e.style.others "paddingLeft",
        getProperty e.style.others "borderTopWidth")) = some (some "10px", some "1px") ∧
    (elementById (showAlert "Saved" none pageWithLonghands).doc "alert-box").map
        (fun e => e.style.others)
      ≠ (elementById pageWithLonghands "alert-box").map (fun e => e.style.others) := by
  refine ⟨rfl, by decide, by decide, by decide⟩

/-- C8, amended: after a successful call the message holder has its id and its
whole style as before; the container has its id as before and every style
property as before apart from display, background colour, text colour,
padding, border and the properties the padding and border shorthands stand
for (`shorthandNames`); every other element found in the document has the id
and the style it had; the completion carries no value. -/
theorem showAlert_frame_up_to_shorthands (m : String) (b : Option Bool) (doc : Document)
    (hok : (showAlert m b doc).succeeded) :
    ∃ rb rm box0 msg0 box1 msg1,
      getElementById doc "alert-box" = some rb ∧
      getElementById doc "alert-message" = some rm ∧
      doc[rb]? = some box0 ∧ doc[rm]? = some msg0 ∧
      (showAlert m b doc).doc[rb]? = some box1 ∧
      (showAlert m b doc).doc[rm]? = some msg1 ∧
      msg1.id = msg0.id ∧ msg1.style = msg0.style ∧
      box1.id = box0.id ∧
      (∀ name, name ∉ shorthandNames →
        getProperty box1.style.others name = getProperty box0.style.others name) ∧
      (∀ i e1, i ≠ rb → i ≠ rm → (showAlert m b doc).doc[i]? = some e1 →
        ∃ e0, doc[i]? = some e0 ∧ e1.id = e0.id ∧ e1.style = e0.style) ∧
      (showAlert m b doc).result = Except.ok () := by
  cases hm : getElementById doc "alert-message" with
  | none =>
    rw [showAlert_no_message m b doc hm] at hok
    simp [Outcome.succeeded] at hok
  | some rm =>
    cases hb : getElementById doc "alert-box" with
    | none =>
      rw [showAlert_no_box m b doc rm hb hm] at hok
      simp [Outcome.succeeded] at hok
    | some rb =>
      obtain ⟨box0, msg0, h1, h2, -, -, h5, h6, h7, -⟩ :=
        showAlert_elements m b doc rb rm hb hm
      refine ⟨rb, rm, box0, msg0, _, _, rfl, rfl, h1, h2, h5, h6, rfl, rfl, rfl,
        fun name hname => writeBox_others_frame _ box0 name hname, ?_, hok⟩
      intro i e1 hib him he1
      rw [h7 i hib him] at he1
      exact ⟨e1, he1, rfl, rfl⟩

/-- Witness for the amended C8 on the page whose container carries longhands:
the margin, which no shorthand of the call stands for, is still "4px". -/
theorem showAlert_frame_up_to_shorthands_witness :
    (showAlert "Saved" none pageWithLonghands).succeeded ∧
    "margin" ∉ shorthandNames ∧
    (elementById (showAlert "Saved" none pageWithLonghands).doc "alert-box").map
      (fun e => getProperty e.style.others "margin") = some (some "4px") ∧
    ∃ rb rm box0 msg0 box1 msg1,
      getElementById pageWithLonghands "alert-box" = some rb ∧
      getElementById pageWithLonghands "alert-message" = some rm ∧
      pageWithLonghands[rb]? = some box0 ∧ pageWithLonghands[rm]? = some msg0 ∧
      (showAlert "Saved" none pageWithLonghands).doc[rb]? = some box1 ∧
      (showAlert "Saved" none pageWithLonghands).doc[rm]? = some msg1 ∧
      msg1.id = msg0.id ∧ msg1.style = msg0.style ∧
      box1.id = box0.id ∧
      (∀ name, name ∉ shorthandNames →
        getProperty box1.style.others name = getProperty box0.style.others name) ∧
      (∀ i e1, i ≠ rb → i ≠ rm →
        (showAlert "Saved" none pageWithLonghands).doc[i]? = some e1 →
        ∃ e0, pageWithLonghands[i]? = some e0 ∧ e1.id = e0.id ∧ e1.style = e0.style) ∧
      (showAlert "Saved" none pageWithLonghands).result = Except.ok () :=
  ⟨rfl, by decide, by decide,
    showAlert_frame_up_to_shorthands "Saved" none pageWithLonghands rfl⟩

/-- C9: on a document with both target elements, `showAlert(m1, b1)` followed
by `showAlert(m2, b2)` has the outcome of `showAlert(m2, b2)` alone; and the
six written properties after the second call are those the same call leaves
on any other document with both target elements. -/
theorem showAlert_last_call_wins (m1 m2 : String) (b1 b2 : Option Bool) (doc : Document)
    (hb : hasElement doc "alert-box") (hm : hasElement doc "alert-message") :
    showAlert m2 b2 (showAlert m1 b1 doc).doc = showAlert m2 b2 doc ∧
    ∀ other : Document, hasElement other "alert-box" → hasElement other "alert-message" →
      writtenProperties (showAlert m2 b2 (showAlert m1 b1 doc).doc).doc =
        writtenProperties (showAlert m2 b2 other).doc := by
  obtain ⟨rb, hrb⟩ := (hasElement_iff _ _).1 hb
  obtain ⟨rm, hrm⟩ := (hasElement_iff _ _).1 hm
  obtain ⟨_, _, -, -, h3, h4, -, -, -, -⟩ := showAlert_elements m1 b1 doc rb rm hrb hrm
  have hne : rb ≠ rm := box_ne_message doc rb rm hrb hrm
  have hwin : showAlert m2 b2 (showAlert m1 b1 doc).doc = showAlert m2 b2 doc := by
    rw [showAlert_present m2 b2 _ rb rm h3 h4, showAlert_present m1 b1 doc rb rm hrb hrm,
      showAlert_present m2 b2 doc rb rm hrb hrm]
    show Outcome.mk _ _ = Outcome.mk _ _
    rw [modifyAt_two_rounds doc rb rm hne, writeBox_twice, writeMessage_twice]
  refine ⟨hwin, fun other hob hom => ?_⟩
  rw [hwin]
  obtain ⟨_, _, -, -, k3, k4, -⟩ := showAlert_targets m2 b2 doc hb hm
  obtain ⟨_, _, -, -, j3, j4, -⟩ := showAlert_targets m2 b2 other hob hom
  simp only [writtenProperties, k3, k4, j3, j4]
  rfl

/-- Witness for C9: an error alert followed by a success alert on the sample
page, compared with the success alert alone and with the success alert on a
page whose elements come in another order. -/
theorem showAlert_last_call_wins_witness :
    hasElement samplePage "alert-box" ∧ hasElement samplePage "alert-message" ∧
    showAlert "Saved" none (showAlert "Failed to save" (some true) samplePage).doc
      = showAlert "Saved" none samplePage ∧
    writtenProperties
        (showAlert "Saved" none (showAlert "Failed to save" (some true) samplePage).doc).doc
      = writtenProperties (showAlert "Saved" none
          [ ⟨"alert-message", "", ⟨"", "", "", "", "", []⟩⟩,
            ⟨"alert-box", "", ⟨"", "", "", "", "", []⟩⟩ ]).doc :=
  ⟨by decide, by decide,
    (showAlert_last_call_wins "Failed to save" "Saved" (some true) none samplePage
      (by decide) (by decide)).1,
    (showAlert_last_call_wins "Failed to save" "Saved" (some true) none samplePage
      (by decide) (by decide)).2 _ (by decide) (by decide)⟩

/-- C10: when `alert-message` is absent the call faults before any write: the
document is the one before the call, so the container, when it exists, keeps
its display, background colour, text colour, padding and border. -/
theorem showAlert_missing_message_no_write (m : String) (b : Option Bool) (doc : Document)
    (hm : ¬ hasElement doc "alert-message") :
    (showAlert m b doc).failed ∧
    (showAlert m b doc).doc = doc ∧
    ∀ box, elementById doc "alert-box" = some box →
      ∃ box1, elementById (showAlert m b doc).doc "alert-box" = some box1 ∧
        box1.style.display = box.style.display ∧
        box1.style.backgroundColor = box.style.backgroundColor ∧
        box1.style.color = box.style.color ∧
        box1.style.padding = box.style.padding ∧
        box1.style.border = box.style.border := by
  rw [showAlert_no_message m b doc ((not_hasElement_iff _ _).1 hm)]
  exact ⟨rfl, rfl, fun box hbox => ⟨box, hbox, rfl, rfl, rfl, rfl, rfl⟩⟩

/-- Witness for C10 on the page that has the container and no message holder. -/
theorem showAlert_missing_message_no_write_witness :
    ¬ hasElement pageWithoutMessage "alert-message" ∧
    hasElement pageWithoutMessage "alert-box" ∧
    (showAlert "Saved" (some true) pageWithoutMessage).failed ∧
    (showAlert "Saved" (some true) pageWithoutMessage).doc = pageWithoutMessage :=
  ⟨by decide, by decide,
    (showAlert_missing_message_no_write "Saved" (some true) pageWithoutMessage (by decide)).1,
    (showAlert_missing_message_no_write "Saved" (some true) pageWithoutMessage (by decide)).2.1⟩

end ShowAlert
